import Mathlib

/-!
Verification of the ScanIA-Spark scan orchestration and progress subsystem.

Shallow embedding of the Python sources under `backend/app`:
* `services/scanner_engine/base_scanner.py` — severity enum, finding model
* `services/scanner_engine/nmap_scanner.py` — network adapter
* `services/scanner_engine/zap_scanner.py` — web-application adapter
* `services/scanner_engine/scan_job_manager.py` — job manager
* `api/v1/scanner_websocket.py` — WebSocketManager (progress snapshots)
* `api/v1/websockets.py` — ConnectionManager (subscription indices)

Python dicts are embedded as association lists over `String` keys, Python
sets as duplicate-free lists, percentages (floats with one decimal of
precision in the source) as naturals scaled by 10.
-/

set_option autoImplicit false

namespace ScanIA

/-! ### Association-list model of Python dicts -/

/-- Lookup in a Python-dict model (first matching key). -/
def dget {α : Type} : List (String × α) → String → Option α
  | [], _ => none
  | (k', v) :: rest, k => if k' = k then some v else dget rest k

/-- Deletion of a key from a Python-dict model (`del d[k]`). -/
def ddel {α : Type} : List (String × α) → String → List (String × α)
  | [], _ => []
  | (k', v) :: rest, k => if k' = k then ddel rest k else (k', v) :: ddel rest k

/-- Update/insert of a key in a Python-dict model (`d[k] = v`). -/
def dset {α : Type} (d : List (String × α)) (k : String) (v : α) : List (String × α) :=
  (k, v) :: ddel d k

/-- Python `set.add`: no duplicate is introduced. -/
def sadd (s : List String) (x : String) : List String :=
  if x ∈ s then s else x :: s

/-- Python `set.discard`: removes the element if present, no error otherwise. -/
def sdiscard : List String → String → List String
  | [], _ => []
  | y :: rest, x => if y = x then sdiscard rest x else y :: sdiscard rest x

/-- Python `list.remove` (first occurrence); the `ValueError` case is handled
at call sites by checking membership first. -/
def lerase : List Nat → Nat → List Nat
  | [], _ => []
  | y :: rest, x => if y = x then rest else y :: lerase rest x

/-! ### Finding model (`base_scanner.py`) -/

/-- `VulnerabilitySeverity` enum of `base_scanner.py` (five levels). -/
inductive VulnerabilitySeverity where
  | critical
  | high
  | medium
  | low
  | info
deriving DecidableEq

/-- `ScanStatus` of `app/models/scan.py`.
Modelled from the spec: the models package is not part of the provided
sources; §3 of the spec gives the status enum
`Pending → Running → (Completed | Failed | Cancelled)`. -/
inductive ScanStatus where
  | pending
  | running
  | completed
  | failed
  | cancelled
deriving DecidableEq

/-- Terminal states per the spec's state machine. -/
def ScanStatus.isTerminal : ScanStatus → Bool
  | .completed => true
  | .failed => true
  | .cancelled => true
  | _ => false

/-- `VulnerabilityData` dataclass of `base_scanner.py`.  `evidence` is an
opaque structured blob (`Dict[str, Any]`), embedded as a string-to-string
association list; `cvss_score` (a float with one decimal) is scaled by 10. -/
structure VulnerabilityData where
  vulnerability_id : String
  title : String
  description : String
  severity : VulnerabilitySeverity
  solution : String
  affected_url : String
  evidence : List (String × String) := []
  cvss_score : Option Nat := none
  cve_id : Option String := none
  parameter : Option String := none
  references : List String := []
  tags : List String := []
  confidence : Option String := none
  risk_description : Option String := none
deriving DecidableEq

/-- `ScanResult` dataclass of `base_scanner.py`, restricted to the fields the
job manager reads (`status`, `vulnerabilities`, `error_message`). -/
structure ScanResult where
  status : String
  vulnerabilities : List VulnerabilityData := []
  error_message : Option String := none
deriving DecidableEq

/-! ### Network adapter severity heuristic (`nmap_scanner.py`) -/

/-- High-risk port list of `NmapScanner._assess_port_severity`. -/
def high_risk_ports : List Nat := [21, 23, 25, 53, 135, 139, 445, 1433, 1521, 3306, 3389, 5432]

/-- Medium-risk port list of `NmapScanner._assess_port_severity`. -/
def medium_risk_ports : List Nat := [22, 80, 110, 143, 443, 993, 995]

/-- Dangerous-service name list of `NmapScanner._assess_port_severity`. -/
def dangerous_services : List String := ["telnet", "ftp", "rsh", "rlogin", "netbios", "smb"]

/-- Character-list version of Python `str.startswith`. -/
def listStartsWith : List Char → List Char → Bool
  | [], _ => true
  | _ :: _, [] => false
  | c :: cs, d :: ds => if c = d then listStartsWith cs ds else false

/-- Character-list version of Python's substring test `sub in hay`. -/
def listHasSub : List Char → List Char → Bool
  | [], sub => listStartsWith sub []
  | c :: rest, sub => listStartsWith sub (c :: rest) || listHasSub rest sub

/-- Python substring containment `sub in hay` on strings. -/
def strContains (hay sub : String) : Bool :=
  listHasSub hay.toList sub.toList

/-- Python `str.lower()`, embedded character-wise. -/
def pyLower (s : String) : List Char :=
  s.toList.map Char.toLower

/-- `NmapScanner._assess_port_severity`: severity of an open port from the
port number (the source converts the string port with `int(port)`) and the
lower-cased service name (`service_info.get("name", "").lower()`). -/
def assessPortSeverity (port : Nat) (serviceName : String) : VulnerabilitySeverity :=
  if high_risk_ports.contains port
      || dangerous_services.any (fun svc => listHasSub (pyLower serviceName) svc.toList) then
    VulnerabilitySeverity.high
  else if medium_risk_ports.contains port then
    VulnerabilitySeverity.medium
  else
    VulnerabilitySeverity.low

/-! ### Web-application adapter (`zap_scanner.py`) -/

/-- `ZAPScanner._map_zap_severity`: ZAP risk string to severity, default
`LOW` for unrecognized values (`mapping.get(zap_risk, VulnerabilitySeverity.LOW)`). -/
def mapZapSeverity (zap_risk : String) : VulnerabilitySeverity :=
  if zap_risk = "High" then VulnerabilitySeverity.high
  else if zap_risk = "Medium" then VulnerabilitySeverity.medium
  else if zap_risk = "Low" then VulnerabilitySeverity.low
  else if zap_risk = "Informational" then VulnerabilitySeverity.info
  else VulnerabilitySeverity.low

/-- `ZAPScanner._calculate_cvss_from_risk` (scores scaled by 10, default 30). -/
def calculateCvssFromRisk (zap_risk : String) : Nat :=
  if zap_risk = "High" then 80
  else if zap_risk = "Medium" then 55
  else if zap_risk = "Low" then 30
  else if zap_risk = "Informational" then 10
  else 30

/-- One alert object as returned by the ZAP `core/view/alerts` endpoint
(the fields read by `_collect_vulnerabilities`). -/
structure ZapAlert where
  name : String := "Unknown Vulnerability"
  description : String := ""
  risk : String := "Low"
  url : String := ""
  param : String := ""
  evidence : String := ""
  solution : String := ""
  reference : String := ""
  confidence : String := ""
deriving DecidableEq

/-- Field names of the `VulnerabilityData` dataclass, in declaration order. -/
def vulnerabilityDataFields : List String :=
  ["vulnerability_id", "title", "description", "severity", "solution", "affected_url",
   "evidence", "cvss_score", "cve_id", "parameter", "references", "tags",
   "confidence", "risk_description"]

/-- `VulnerabilityData` fields without a default value: the dataclass call
must supply them. -/
def vulnerabilityDataRequired : List String :=
  ["vulnerability_id", "title", "description", "severity", "solution", "affected_url"]

/-- Keyword arguments used at the `VulnerabilityData(...)` call inside
`ZAPScanner._collect_vulnerabilities` (lines 413–425). -/
def zapCollectKwargs : List String :=
  ["title", "description", "severity", "cvss_score", "url", "parameter",
   "evidence", "solution", "references", "confidence", "risk_description"]

/-- Python dataclass call semantics: the call succeeds iff every keyword
names a declared field and every field without a default is supplied;
otherwise the constructor raises `TypeError`. -/
def dataclassCallOk (fields required kwargs : List String) : Bool :=
  kwargs.all (fun k => fields.contains k) && required.all (fun f => kwargs.contains f)

/-- Construction of one finding from one alert as written in
`_collect_vulnerabilities`: the `VulnerabilityData(...)` call uses the
keyword set `zapCollectKwargs`, so it raises `TypeError` (embedded as
`Except.error`) whenever that keyword set is invalid for the dataclass. -/
def zapAlertToVuln (a : ZapAlert) : Except String VulnerabilityData :=
  if dataclassCallOk vulnerabilityDataFields vulnerabilityDataRequired zapCollectKwargs then
    Except.ok
      { vulnerability_id := ""
        title := a.name
        description := a.description
        severity := mapZapSeverity a.risk
        cvss_score := some (calculateCvssFromRisk a.risk)
        solution := a.solution
        affected_url := a.url
        parameter := some a.param
        confidence := some a.confidence
        risk_description := some a.description }
  else
    Except.error "TypeError: unexpected keyword argument for VulnerabilityData"

/-- The alert loop of `_collect_vulnerabilities`: alerts are converted in
order and appended; an exception escapes the loop into the surrounding
`except`, which logs and falls through to `return vulnerabilities`, so the
list accumulated before the exception is returned. -/
def collectLoop : List ZapAlert → List VulnerabilityData → List VulnerabilityData
  | [], acc => acc
  | a :: rest, acc =>
    match zapAlertToVuln a with
    | Except.ok v => collectLoop rest (acc ++ [v])
    | Except.error _ => acc

/-- `ZAPScanner._collect_vulnerabilities`, given the alert list already
retrieved from the tool. -/
def collectVulnerabilities (alerts : List ZapAlert) : List VulnerabilityData :=
  collectLoop alerts []

/-! ### Result aggregation (`scan_job_manager.py`, `_process_scan_results`) -/

/-- `_process_scan_results`: all vulnerability lists are concatenated
(`all_vulnerabilities.extend(result.vulnerabilities)`) and each entry is
stored; the stored aggregate is the concatenation, in order. -/
def processScanResults (scan_results : List ScanResult) : List VulnerabilityData :=
  scan_results.foldl (fun acc r => acc ++ r.vulnerabilities) []

/-- Number of findings in a batch carrying a given stable finding id. -/
def countId (id : String) (vulns : List VulnerabilityData) : Nat :=
  (vulns.filter (fun v => v.vulnerability_id = id)).length

/-! ### Job execution (`scan_job_manager.py`, `_execute_scan_job`) -/

/-- Behavior of one requested scan kind inside the per-kind loop of
`_execute_scan_job`: the adapter's `scan()` either raises an exception or
returns a `ScanResult`. -/
inductive AdapterBehavior where
  | raises (msg : String)
  | outcome (result : ScanResult)
deriving DecidableEq

/-- The per-kind loop of `_execute_scan_job` (lines 163–199): a raised
exception is caught by the per-iteration `except Exception` and only
logged; a returned result is appended to `all_results` iff its status is
`"completed"` (otherwise only a warning is logged). -/
def runScanTypes (behaviors : List AdapterBehavior) : List ScanResult :=
  behaviors.foldl
    (fun acc b =>
      match b with
      | AdapterBehavior.raises _ => acc
      | AdapterBehavior.outcome r => if r.status = "completed" then acc ++ [r] else acc)
    []

/-- Final observable outcome of one job execution. -/
structure JobEnd where
  status : ScanStatus
  error_message : Option String
  persisted : List VulnerabilityData
deriving DecidableEq

/-- `_execute_scan_job`: after the per-kind loop, results are processed and
the job is marked `COMPLETED`.  Every statement inside the surrounding
`try` either cannot raise or catches its own exceptions
(`_process_scan_results`, `_update_scan_status`, `_update_progress` all have
internal `try/except`), so the `except` branch that would set `FAILED`
with the exception message is not reached from adapter behavior. -/
def executeScanJob (behaviors : List AdapterBehavior) : JobEnd :=
  { status := ScanStatus.completed
    error_message := none
    persisted := processScanResults (runScanTypes behaviors) }

/-- A sample finding used in concrete executions. -/
def sampleFinding : VulnerabilityData :=
  { vulnerability_id := "nmap_port_example.com_80_tcp"
    title := "Open Port 80/TCP - http"
    description := "Port 80 is open on example.com"
    severity := VulnerabilitySeverity.medium
    solution := "Consider using HTTPS instead of HTTP for web traffic"
    affected_url := "example.com:80" }

/-! ### Job manager start/cancel (`scan_job_manager.py`) -/

/-- The persisted record of one scan, restricted to the columns
`start_scan_job`/`cancel_scan_job` write (`status`, `error_message`). -/
structure JobRecord where
  status : ScanStatus
  error_message : Option String := none
deriving DecidableEq

/-- `ScanJobManager` state: the database rows and `active_jobs`.  Each
active entry carries the `task.done()` flag of its background task. -/
structure ManagerState where
  db : List (String × JobRecord)
  active_jobs : List (String × Bool)
deriving DecidableEq

/-- `ScanJobManager.start_scan_job`: looks the scan up in the database,
refuses only when the id is missing or already in `active_jobs`; otherwise
sets the status to `RUNNING` and registers the job as active.  The current
status of the stored scan is never consulted. -/
def startScanJob (st : ManagerState) (scan_id : String) : Bool × ManagerState :=
  match dget st.db scan_id with
  | none => (false, st)
  | some r =>
    if (dget st.active_jobs scan_id).isSome then
      (false, st)
    else
      (true,
        { db := dset st.db scan_id { r with status := ScanStatus.running }
          active_jobs := dset st.active_jobs scan_id false })

/-- `ScanJobManager.cancel_scan_job`: refuses when the id is not in
`active_jobs` or its task is already done; otherwise cancels the task and
writes status `CANCELLED` with the fixed error message. -/
def cancelScanJob (st : ManagerState) (scan_id : String) : Bool × ManagerState :=
  match dget st.active_jobs scan_id with
  | none => (false, st)
  | some taskDone =>
    if taskDone then (false, st)
    else
      match dget st.db scan_id with
      | none => (true, st)
      | some r =>
        (true,
          { st with
            db := dset st.db scan_id
              { r with status := ScanStatus.cancelled
                       error_message := some "Scan cancelled by user" } })

/-! ### WebSocketManager (`scanner_websocket.py`) -/

/-- `WebSocketManager` state: per-scan connection lists and the latest
progress payload per scan.  Transport handles are naturals and the opaque
progress payload is embedded as a natural. -/
structure WSManager where
  active_connections : List (String × List Nat)
  latest_progress : List (String × Nat)
deriving DecidableEq

/-- The empty manager created at module import. -/
def emptyWSManager : WSManager := { active_connections := [], latest_progress := [] }

/-- `WebSocketManager.disconnect`: removes the socket from the scan's list
(the `ValueError` when absent is swallowed) and deletes the list when it
becomes empty. -/
def wsMgrDisconnect (m : WSManager) (ws : Nat) (scan_id : String) : WSManager :=
  match dget m.active_connections scan_id with
  | none => m
  | some conns =>
    if ws ∈ conns then
      let conns' := lerase conns ws
      if conns' = [] then
        { m with active_connections := ddel m.active_connections scan_id }
      else
        { m with active_connections := dset m.active_connections scan_id conns' }
    else m

/-- `WebSocketManager.connect`: registers the socket under the scan id and,
if a latest-progress payload exists for that scan, sends it to the new
socket (returned as the second component). -/
def wsMgrConnect (m : WSManager) (ws : Nat) (scan_id : String) : WSManager × Option Nat :=
  let conns :=
    match dget m.active_connections scan_id with
    | none => []
    | some l => l
  let m1 : WSManager :=
    { m with active_connections := dset m.active_connections scan_id (conns ++ [ws]) }
  (m1, dget m1.latest_progress scan_id)

/-- `WebSocketManager.send_progress_update`: returns immediately when the
scan id has no registered connection — in that case the latest-progress
snapshot is NOT stored.  Otherwise the snapshot is stored and the payload
is sent to every connection, disconnecting the ones whose send fails
(`dead` tells which sockets fail). -/
def sendProgressUpdate (m : WSManager) (scan_id : String) (progress_data : Nat)
    (dead : Nat → Bool) : WSManager :=
  match dget m.active_connections scan_id with
  | none => m
  | some conns =>
    let m1 : WSManager := { m with latest_progress := dset m.latest_progress scan_id progress_data }
    (conns.filter dead).foldl (fun acc ws => wsMgrDisconnect acc ws scan_id) m1

/-! ### Adapter progress and cancellation (`nmap_scanner.py`, `zap_scanner.py`)

The environment of one `scan()` call records the outcomes of the external
interactions: health check, target validation, and for ZAP the sequence of
polled tool statuses per phase (`none` models a non-200 response, in which
case the loop emits nothing for that iteration).  Percentages are scaled
by 10 (so `10 + progress * 0.3` becomes `100 + 3 * progress`).  A polling
loop that the tool never ends is observed through a finite prefix of its
polls; the active-scan timeout break likewise truncates the poll list. -/

/-- Generic ZAP polling loop (`_run_spider` with `base = 100`,
`_run_active_scan` with `base = 600`): each iteration first checks
`self.should_stop` and breaks if set, then polls; a successful poll with
progress `p` emits `base + 3 * p` and breaks once `p ≥ 100`. -/
def zapPollEmits (base : Nat) (should_stop : Bool) : List (Option Nat) → List Nat
  | [] => []
  | o :: rest =>
    if should_stop then []
    else
      match o with
      | some p => (base + 3 * p) :: (if 100 ≤ p then [] else zapPollEmits base should_stop rest)
      | none => zapPollEmits base should_stop rest

/-- Progress emissions of `ZAPScanner._run_spider` (phase base 10%). -/
def zapSpiderEmits (should_stop : Bool) (polls : List (Option Nat)) : List Nat :=
  zapPollEmits 100 should_stop polls

/-- Progress emissions of `ZAPScanner._run_active_scan` (phase base 60%). -/
def zapActiveEmits (should_stop : Bool) (polls : List (Option Nat)) : List Nat :=
  zapPollEmits 600 should_stop polls

/-- Progress emissions of `ZAPScanner._wait_for_passive_scan`: each
iteration checks the stop flag, then polls `recordsToScan`; the loop breaks
on `records ≤ 0`, otherwise emits the constant 45%. -/
def zapPassiveEmits (should_stop : Bool) : List (Option Nat) → List Nat
  | [] => []
  | o :: rest =>
    if should_stop then []
    else
      match o with
      | some r => if r = 0 then [] else 450 :: zapPassiveEmits should_stop rest
      | none => zapPassiveEmits should_stop rest

/-- Environment of one `ZAPScanner.scan` call. -/
structure ZapScanEnv where
  healthOk : Bool := true
  validateOk : Bool := true
  enable_spider : Bool := true
  enable_passive_scan : Bool := true
  enable_active_scan : Bool := true
  spiderPolls : List (Option Nat) := []
  passivePolls : List (Option Nat) := []
  activePolls : List (Option Nat) := []

/-- Progress percentages (scaled by 10) passed to the progress callback by
one `ZAPScanner.scan` call, in order: 0, then — unless the health check or
target validation raises — 10, the spider loop, 40, the passive wait, 60,
the active loop, 90, 100. -/
def zapScanEmits (should_stop : Bool) (env : ZapScanEnv) : List Nat :=
  0 :: (if env.healthOk then
    if env.validateOk then
      100 :: ((if env.enable_spider then zapSpiderEmits should_stop env.spiderPolls else [])
        ++ 400 :: ((if env.enable_passive_scan then zapPassiveEmits should_stop env.passivePolls else [])
        ++ 600 :: ((if env.enable_active_scan then zapActiveEmits should_stop env.activePolls else [])
        ++ [900, 1000])))
    else []
  else [])

/-- Status of the `ScanResult` returned by `ZAPScanner.scan`: `"completed"`
unless the health check or target validation raised, in which case the
`except` branch sets `"failed"`.  The stop flag never changes the status —
no branch of `scan` produces `"cancelled"`. -/
def zapScanStatus (_should_stop : Bool) (env : ZapScanEnv) : String :=
  if env.healthOk then
    if env.validateOk then "completed" else "failed"
  else "failed"

/-- Environment of one `NmapScanner.scan` call: health check, target
validation, and whether `_execute_nmap_scan` returned output (rather than
raising on timeout or empty output). -/
structure NmapScanEnv where
  healthOk : Bool := true
  validateOk : Bool := true
  execOk : Bool := true

/-- Progress percentages (scaled by 10) emitted by one `NmapScanner.scan`
call: 0, 10, 20, 80, 100, truncated at the point where a step raises.
`NmapScanner.scan` contains no check of `self.should_stop`. -/
def nmapScanEmits (_should_stop : Bool) (env : NmapScanEnv) : List Nat :=
  0 :: (if env.healthOk then
    if env.validateOk then
      100 :: 200 :: (if env.execOk then [800, 1000] else [])
    else []
  else [])

/-- Status of the `ScanResult` returned by `NmapScanner.scan`: independent
of the stop flag; never `"cancelled"`. -/
def nmapScanStatus (_should_stop : Bool) (env : NmapScanEnv) : String :=
  if env.healthOk && env.validateOk && env.execOk then "completed" else "failed"

/-- Boolean non-decreasing check on a list of (scaled) percentages. -/
def nonDecr : List Nat → Bool
  | [] => true
  | [_] => true
  | x :: y :: rest => if x ≤ y then nonDecr (y :: rest) else false

/-- The tool-reported progress values in a poll sequence (`none` = non-200
responses carry no value). -/
def pollVals (polls : List (Option Nat)) : List Nat :=
  polls.filterMap id

/-! ### ConnectionManager (`websockets.py`) -/

/-- `ConnectionManager` state: per-user connection lists and the two
subscription indices (`scan_subscriptions : scan_id -> set of user_ids`,
`user_subscriptions : user_id -> set of scan_ids`). -/
structure ConnectionManager where
  active_connections : List (String × List Nat)
  scan_subscriptions : List (String × List String)
  user_subscriptions : List (String × List String)
deriving DecidableEq

/-- The manager created at module import. -/
def emptyConnectionManager : ConnectionManager :=
  { active_connections := [], scan_subscriptions := [], user_subscriptions := [] }

/-- The two-line Python idiom `if k not in d: d[k] = set()` followed by
`d[k].add(x)`. -/
def addSub (d : List (String × List String)) (k x : String) : List (String × List String) :=
  let d1 := match dget d k with
    | none => dset d k []
    | some _ => d
  dset d1 k (sadd (match dget d1 k with | none => [] | some s => s) x)

/-- `if k in d: d[k].discard(x); if not d[k]: del d[k]` — the removal shape
of `unsubscribe_from_scan` on `scan_subscriptions` and of the `disconnect`
cleanup loop. -/
def dropSubDel (d : List (String × List String)) (k x : String) : List (String × List String) :=
  match dget d k with
  | none => d
  | some s =>
    let s' := sdiscard s x
    if s' = [] then ddel d k else dset d k s'

/-- `if k in d: d[k].discard(x)` — the removal shape of
`unsubscribe_from_scan` on `user_subscriptions` (the possibly empty set is
kept). -/
def dropSubKeep (d : List (String × List String)) (k x : String) : List (String × List String) :=
  match dget d k with
  | none => d
  | some s => dset d k (sdiscard s x)

/-- `d.setdefault(k, set())` (used by `connect` on `user_subscriptions`). -/
def setdefaultEmpty (d : List (String × List String)) (k : String) : List (String × List String) :=
  match dget d k with
  | none => dset d k []
  | some _ => d

/-- `ConnectionManager.subscribe_to_scan`. -/
def subscribeToScan (m : ConnectionManager) (user_id scan_id : String) : ConnectionManager :=
  { m with
    scan_subscriptions := addSub m.scan_subscriptions scan_id user_id
    user_subscriptions := addSub m.user_subscriptions user_id scan_id }

/-- `ConnectionManager.unsubscribe_from_scan`. -/
def unsubscribeFromScan (m : ConnectionManager) (user_id scan_id : String) : ConnectionManager :=
  { m with
    scan_subscriptions := dropSubDel m.scan_subscriptions scan_id user_id
    user_subscriptions := dropSubKeep m.user_subscriptions user_id scan_id }

/-- `ConnectionManager.connect`: registers the socket under the user and
`setdefault`s the user's subscription set. -/
def cmConnect (m : ConnectionManager) (ws : Nat) (user_id : String) : ConnectionManager :=
  let conns := match dget m.active_connections user_id with
    | none => []
    | some l => l
  { m with
    active_connections := dset m.active_connections user_id (conns ++ [ws])
    user_subscriptions := setdefaultEmpty m.user_subscriptions user_id }

/-- The cleanup loop of `ConnectionManager.disconnect`: for every scan the
user was subscribed to, the user is discarded from that scan's set and the
set is deleted when it becomes empty. -/
def discardUserFromScans (user_id : String) (scanList : List String)
    (scans : List (String × List String)) : List (String × List String) :=
  scanList.foldl (fun d sid => dropSubDel d sid user_id) scans

/-- `ConnectionManager.disconnect`: removes the socket from the user's list
(state unchanged when the user or socket is unknown — the `ValueError` is
swallowed); when the user's last connection goes away, the user is removed
from both subscription indices. -/
def cmDisconnect (m : ConnectionManager) (ws : Nat) (user_id : String) : ConnectionManager :=
  match dget m.active_connections user_id with
  | none => m
  | some conns =>
    if ws ∈ conns then
      let conns' := lerase conns ws
      if conns' = [] then
        match dget m.user_subscriptions user_id with
        | none => { m with active_connections := ddel m.active_connections user_id }
        | some scanList =>
          { active_connections := ddel m.active_connections user_id
            scan_subscriptions := discardUserFromScans user_id scanList m.scan_subscriptions
            user_subscriptions := ddel m.user_subscriptions user_id }
      else
        { m with active_connections := dset m.active_connections user_id conns' }
    else m

/-- One operation against the global `ConnectionManager`. -/
inductive WsOp where
  | subscribe (user_id scan_id : String)
  | unsubscribe (user_id scan_id : String)
  | connect (ws : Nat) (user_id : String)
  | disconnect (ws : Nat) (user_id : String)
deriving DecidableEq

/-- Apply one operation. -/
def applyWsOp (m : ConnectionManager) : WsOp → ConnectionManager
  | WsOp.subscribe u s => subscribeToScan m u s
  | WsOp.unsubscribe u s => unsubscribeFromScan m u s
  | WsOp.connect ws u => cmConnect m ws u
  | WsOp.disconnect ws u => cmDisconnect m ws u

/-- Run a sequence of operations from the freshly imported manager. -/
def runWsOps (ops : List WsOp) : ConnectionManager :=
  ops.foldl applyWsOp emptyConnectionManager

/-- Membership of a user in a scan's subscriber set (an absent key reads as
the empty set). -/
def subMem (d : List (String × List String)) (k x : String) : Prop :=
  x ∈ (match dget d k with | none => [] | some s => s)

/-- The spec's index-consistency invariant: a user appears in a scan's set
iff that scan appears in the user's set. -/
def IndicesConsistent (m : ConnectionManager) : Prop :=
  ∀ u s, subMem m.scan_subscriptions s u ↔ subMem m.user_subscriptions u s

/-! ### Concrete instances used in counterexamples and witnesses -/

/-- A job sequence where the first adapter completes with one finding and
the second adapter's `scan()` raises. -/
def c1Behaviors : List AdapterBehavior :=
  [AdapterBehavior.outcome { status := "completed", vulnerabilities := [sampleFinding] },
   AdapterBehavior.raises "boom"]

/-- A manager state holding one terminal (Completed) job with no active task. -/
def c2State : ManagerState :=
  { db := [("job-1", { status := ScanStatus.completed })], active_jobs := [] }

/-- A manager state holding one job currently active (task not done). -/
def c2ActiveState : ManagerState :=
  { db := [("job-1", { status := ScanStatus.running })], active_jobs := [("job-1", false)] }

/-- A WebSocket manager with one live connection on scan `"job-1"`. -/
def c3ConnectedWS : WSManager :=
  { active_connections := [("job-1", [7])], latest_progress := [] }

/-- One ZAP alert with risk `High`. -/
def c4Alert : ZapAlert :=
  { name := "X-Frame-Options Header Not Set", risk := "High", url := "http://example.com" }

/-- Two scan results whose batches share the stable finding id `"dup-1"`. -/
def dupFinding : VulnerabilityData :=
  { vulnerability_id := "dup-1"
    title := "Duplicate Finding"
    description := "appears in two batches"
    severity := VulnerabilitySeverity.low
    solution := ""
    affected_url := "example.com:8081" }

/-- First batch containing the shared finding id. -/
def c6Result1 : ScanResult := { status := "completed", vulnerabilities := [dupFinding] }

/-- Second batch containing the same finding id. -/
def c6Result2 : ScanResult := { status := "completed", vulnerabilities := [dupFinding] }

/-- A ZAP environment whose spider reports progress 50 and then 30: the
tool-reported progress regresses. -/
def c9BadEnv : ZapScanEnv := { spiderPolls := [some 50, some 30] }

/-- A ZAP environment with well-behaved (non-decreasing, ≤ 100) polls. -/
def c9GoodEnv : ZapScanEnv :=
  { spiderPolls := [some 0, some 100], activePolls := [none, some 40, some 100] }

/-- `takeIncl l` is the prefix of `l` up to and including the first element
`≥ 100` — the tool-progress values a ZAP polling loop actually consumes. -/
def takeIncl : List Nat → List Nat
  | [] => []
  | p :: rest => p :: (if 100 ≤ p then [] else takeIncl rest)

/-! ## Helper lemmas -/

theorem dget_ddel {α : Type} (d : List (String × α)) (k k' : String) :
    dget (ddel d k) k' = if k = k' then none else dget d k' := by
  induction d with
  | nil => simp [ddel, dget]
  | cons p rest ih =>
    obtain ⟨k'', v⟩ := p
    by_cases h1 : k'' = k
    · subst h1
      by_cases h2 : k'' = k'
      · subst h2; simp [ddel, dget, ih]
      · simp [ddel, dget, h2, ih]
    · by_cases h2 : k'' = k'
      · subst h2
        have : ¬ k = k'' := fun e => h1 e.symm
        simp [ddel, dget, h1, this]
      · simp [ddel, dget, h1, h2, ih]

theorem dget_dset {α : Type} (d : List (String × α)) (k k' : String) (v : α) :
    dget (dset d k v) k' = if k = k' then some v else dget d k' := by
  by_cases h : k = k' <;> simp [dset, dget, h, dget_ddel]

theorem mem_sadd (s : List String) (x a : String) :
    a ∈ sadd s x ↔ a ∈ s ∨ a = x := by
  by_cases h : x ∈ s
  · simp only [sadd, if_pos h]
    constructor
    · exact fun ha => Or.inl ha
    · rintro (ha | rfl)
      · exact ha
      · exact h
  · simp [sadd, if_neg h]
    tauto

theorem mem_sdiscard (s : List String) (x a : String) :
    a ∈ sdiscard s x ↔ a ∈ s ∧ a ≠ x := by
  induction s with
  | nil => simp [sdiscard]
  | cons y rest ih =>
    by_cases h : y = x
    · subst h; simp [sdiscard, ih]; tauto
    · simp [sdiscard, h, ih]
      constructor
      · rintro (rfl | ⟨hm, hne⟩)
        · exact ⟨Or.inl rfl, h⟩
        · exact ⟨Or.inr hm, hne⟩
      · rintro ⟨(rfl | hm), hne⟩
        · exact Or.inl rfl
        · exact Or.inr ⟨hm, hne⟩

/-! ## Claim theorems -/

/-- Helper: `foldl` step of the per-kind loop ignores a raising adapter. -/
theorem runScanTypes_ignores_raises (pre post : List AdapterBehavior) (msg : String) :
    runScanTypes (pre ++ AdapterBehavior.raises msg :: post) = runScanTypes (pre ++ post) := by
  simp [runScanTypes, List.foldl_append]

/-- C1 (counterexample): with a first adapter completing with one finding
and a second adapter raising mid-execution, the job reaches `COMPLETED` —
not `FAILED` — with no error message; the earlier finding is persisted. -/
theorem c1_counterexample :
    (executeScanJob c1Behaviors).status = ScanStatus.completed
    ∧ ScanStatus.completed ≠ ScanStatus.failed
    ∧ (executeScanJob c1Behaviors).error_message = none
    ∧ (executeScanJob c1Behaviors).persisted = [sampleFinding] := by
  refine ⟨rfl, by decide, rfl, ?_⟩
  decide

/-- C1 (amended): an exception raised by an adapter's `scan()` inside the
per-kind loop of `_execute_scan_job` is caught and only logged — the job
behaves exactly as if that kind had not been requested, always reaches
`COMPLETED` with no error message, and persists the findings of the
adapters that completed. -/
theorem c1_adapter_exception_swallowed (pre post behaviors : List AdapterBehavior) (msg : String) :
    executeScanJob (pre ++ AdapterBehavior.raises msg :: post) = executeScanJob (pre ++ post)
    ∧ (executeScanJob behaviors).status = ScanStatus.completed
    ∧ (executeScanJob behaviors).error_message = none := by
  refine ⟨?_, rfl, rfl⟩
  simp [executeScanJob, runScanTypes_ignores_raises]

/-- C2 (counterexample): `start_scan_job` against the terminal (Completed)
job `"job-1"`, which is no longer in `active_jobs`, is not a no-op: it
returns `True` and writes status `RUNNING` again. -/
theorem c2_counterexample :
    ScanStatus.isTerminal ScanStatus.completed = true
    ∧ (startScanJob c2State "job-1").1 = true
    ∧ dget (startScanJob c2State "job-1").2.db "job-1" = some { status := ScanStatus.running }
    ∧ ScanStatus.running ≠ ScanStatus.completed := by
  refine ⟨rfl, ?_, ?_, by decide⟩ <;> decide

/-- C2 (amended): a cancel request against a job that is not in
`active_jobs` (which includes every terminal job, since the task's
`finally` removes it) or whose task is done is a no-op returning `False`
that writes nothing; a duplicate start against a job currently in
`active_jobs` is likewise a no-op; but a start against a terminal job that
is no longer active re-transitions it to `RUNNING` (see the
counterexample). -/
theorem c2_terminal_noop_amended (st : ManagerState) (scan_id : String) :
    (dget st.active_jobs scan_id = none → cancelScanJob st scan_id = (false, st))
    ∧ (dget st.active_jobs scan_id = some true → cancelScanJob st scan_id = (false, st))
    ∧ (∀ b, dget st.active_jobs scan_id = some b → startScanJob st scan_id = (false, st)) := by
  refine ⟨?_, ?_, ?_⟩
  · intro h; simp [cancelScanJob, h]
  · intro h; simp [cancelScanJob, h]
  · intro b h
    unfold startScanJob
    cases hdb : dget st.db scan_id with
    | none => rfl
    | some r => simp [h]

/-- C2 (witness): on the concrete terminal state, cancel is a no-op and, on
the concrete active state, a duplicate start is a no-op. -/
theorem c2_witness :
    cancelScanJob c2State "job-1" = (false, c2State)
    ∧ startScanJob c2ActiveState "job-1" = (false, c2ActiveState) :=
  ⟨(c2_terminal_noop_amended c2State "job-1").1 (by decide),
   (c2_terminal_noop_amended c2ActiveState "job-1").2.2 false (by decide)⟩

/-- C4 (code_bug): the `VulnerabilityData(...)` call in
`_collect_vulnerabilities` passes the keyword `url`, which is not a field
of the dataclass, and omits the required `vulnerability_id` and
`affected_url`; the resulting `TypeError` is caught by the surrounding
`except` and the function returns the empty list instead of one finding
per alert.  (`_map_zap_severity` itself would map the alert's `High` risk
to severity `high`.) -/
theorem c4_collect_typeerror :
    dataclassCallOk vulnerabilityDataFields vulnerabilityDataRequired zapCollectKwargs = false
    ∧ collectVulnerabilities [c4Alert] = []
    ∧ (collectVulnerabilities [c4Alert]).length = 0
    ∧ mapZapSeverity "High" = VulnerabilitySeverity.high := by
  refine ⟨by decide, ?_, ?_, by decide⟩ <;> decide

/-- C6 (counterexample): merging two completed batches that share the
stable finding id `"dup-1"` yields that finding twice in the persisted
aggregate, not once — `_process_scan_results` performs no deduplication. -/
theorem c6_counterexample :
    processScanResults [c6Result1, c6Result2] = [dupFinding, dupFinding]
    ∧ countId "dup-1" (processScanResults [c6Result1, c6Result2]) = 2
    ∧ (2 : Nat) ≠ 1 := by
  refine ⟨?_, ?_, by decide⟩ <;> decide

/-- Helper: `_process_scan_results` concatenates the per-result batches. -/
theorem processScanResults_eq_join (rs : List ScanResult) :
    processScanResults rs = (rs.map ScanResult.vulnerabilities).flatten := by
  suffices h : ∀ acc : List VulnerabilityData,
      rs.foldl (fun a r => a ++ r.vulnerabilities) acc = acc ++ (rs.map ScanResult.vulnerabilities).flatten by
    simpa [processScanResults] using h []
  induction rs with
  | nil => intro acc; simp
  | cons r rest ih => intro acc; simp [ih]

/-- Helper: counting a finding id distributes over concatenation. -/
theorem countId_append (id : String) (l1 l2 : List VulnerabilityData) :
    countId id (l1 ++ l2) = countId id l1 + countId id l2 := by
  simp [countId, List.filter_append]

/-- C6 (amended): the aggregate persisted by `_process_scan_results` is the
plain concatenation of the batches; a stable finding id occurring in
several batches occurs in the aggregate exactly as many times as the sum of
its per-batch occurrences (so two batches sharing an id yield two
findings, not one). -/
theorem c6_no_dedup_amended (rs : List ScanResult) (id : String) :
    countId id (processScanResults rs)
      = (rs.map (fun r => countId id r.vulnerabilities)).sum := by
  rw [processScanResults_eq_join]
  induction rs with
  | nil => simp [countId]
  | cons r rest ih => simp [countId_append, ih]

/-- C7 (confirmed): `_assess_port_severity` is a pure function of
(port, service-name) — it is embedded here as a Lean function, so equal
inputs give equal outputs by construction — and it realizes the fixed
table: high-risk ports or a dangerous service substring give `HIGH`,
otherwise medium-risk ports give `MEDIUM`, otherwise `LOW`; port 8081 with
no matched service gives `LOW`. -/
theorem c7_port_severity (port : Nat) (svc : String) :
    (high_risk_ports.contains port = true →
      assessPortSeverity port svc = VulnerabilitySeverity.high)
    ∧ (dangerous_services.any (fun d => listHasSub (pyLower svc) d.toList) = true →
      assessPortSeverity port svc = VulnerabilitySeverity.high)
    ∧ (high_risk_ports.contains port = false →
      dangerous_services.any (fun d => listHasSub (pyLower svc) d.toList) = false →
      medium_risk_ports.contains port = true →
      assessPortSeverity port svc = VulnerabilitySeverity.medium)
    ∧ (high_risk_ports.contains port = false →
      dangerous_services.any (fun d => listHasSub (pyLower svc) d.toList) = false →
      medium_risk_ports.contains port = false →
      assessPortSeverity port svc = VulnerabilitySeverity.low)
    ∧ assessPortSeverity 8081 "" = VulnerabilitySeverity.low
    ∧ assessPortSeverity 22 "" = VulnerabilitySeverity.medium
    ∧ assessPortSeverity 3389 "" = VulnerabilitySeverity.high := by
  refine ⟨?_, ?_, ?_, ?_, by decide, by decide, by decide⟩
  · intro h; unfold assessPortSeverity; rw [h, Bool.true_or]; rfl
  · intro h; unfold assessPortSeverity; rw [h, Bool.or_true]; rfl
  · intro h1 h2 h3; unfold assessPortSeverity; rw [h1, h2, Bool.or_self, h3]; rfl
  · intro h1 h2 h3; unfold assessPortSeverity; rw [h1, h2, Bool.or_self, h3]; rfl

/-- C7 (witness): concrete evaluations through the theorem — port 23 is
high-risk, port 80 is medium-risk, a `telnet` service on a neutral port is
high. -/
theorem c7_witness :
    assessPortSeverity 23 "" = VulnerabilitySeverity.high
    ∧ assessPortSeverity 80 "" = VulnerabilitySeverity.medium
    ∧ assessPortSeverity 9999 "telnetd" = VulnerabilitySeverity.high :=
  ⟨(c7_port_severity 23 "").1 (by decide),
   (c7_port_severity 80 "").2.2.1 (by decide) (by decide) (by decide),
   (c7_port_severity 9999 "telnetd").2.1 (by decide)⟩

/-- Helper: the ZAP risk mapping never produces `critical`. -/
theorem mapZapSeverity_ne_critical (risk : String) :
    mapZapSeverity risk ≠ VulnerabilitySeverity.critical := by
  unfold mapZapSeverity
  split
  · decide
  · split
    · decide
    · split
      · decide
      · split <;> decide

/-- C10 (confirmed): `_map_zap_severity` only ever returns one of
`HIGH/MEDIUM/LOW/INFO` (default `LOW` for unrecognized risk strings), never
`CRITICAL`; consequently every finding collected by the web-application
adapter — there are none, given the collection bug, and even the intended
per-alert construction takes its severity from this mapping — is
non-critical. -/
theorem c10_never_critical (risk : String) (alerts : List ZapAlert) :
    mapZapSeverity risk ≠ VulnerabilitySeverity.critical
    ∧ (mapZapSeverity risk = VulnerabilitySeverity.high
        ∨ mapZapSeverity risk = VulnerabilitySeverity.medium
        ∨ mapZapSeverity risk = VulnerabilitySeverity.low
        ∨ mapZapSeverity risk = VulnerabilitySeverity.info)
    ∧ (risk ∉ (["High", "Medium", "Low", "Informational"] : List String) →
        mapZapSeverity risk = VulnerabilitySeverity.low)
    ∧ (∀ v ∈ collectVulnerabilities alerts, v.severity ≠ VulnerabilitySeverity.critical) := by
  refine ⟨mapZapSeverity_ne_critical risk, ?_, ?_, ?_⟩
  · unfold mapZapSeverity
    split
    · exact Or.inl rfl
    · split
      · exact Or.inr (Or.inl rfl)
      · split
        · exact Or.inr (Or.inr (Or.inl rfl))
        · split
          · exact Or.inr (Or.inr (Or.inr rfl))
          · exact Or.inr (Or.inr (Or.inl rfl))
  · intro h
    have h1 : risk ≠ "High" := by intro e; exact h (by simp [e])
    have h2 : risk ≠ "Medium" := by intro e; exact h (by simp [e])
    have h3 : risk ≠ "Low" := by intro e; exact h (by simp [e])
    have h4 : risk ≠ "Informational" := by intro e; exact h (by simp [e])
    simp [mapZapSeverity, h1, h2, h3, h4]
  · intro v hv
    have hbad : dataclassCallOk vulnerabilityDataFields vulnerabilityDataRequired
        zapCollectKwargs = false := by decide
    cases alerts with
    | nil => simp [collectVulnerabilities, collectLoop] at hv
    | cons a rest =>
      simp [collectVulnerabilities, collectLoop, zapAlertToVuln, hbad] at hv

/-- C10 (witness): an unrecognized risk string maps to `LOW`, and the
default path is exercised through the theorem. -/
theorem c10_witness :
    mapZapSeverity "Banana" = VulnerabilitySeverity.low
    ∧ mapZapSeverity "Banana" ≠ VulnerabilitySeverity.critical :=
  ⟨(c10_never_critical "Banana" []).2.2.1 (by decide),
   (c10_never_critical "Banana" []).1⟩

/-- C3 (counterexample): publishing a progress event for a job with no
registered subscriber does NOT update the broadcaster's snapshot
(`send_progress_update` returns before storing `latest_progress`), and a
subscriber attaching afterwards receives nothing on connect. -/
theorem c3_counterexample :
    dget (sendProgressUpdate emptyWSManager "job-1" 42 (fun _ => false)).latest_progress "job-1"
        = none
    ∧ (wsMgrConnect (sendProgressUpdate emptyWSManager "job-1" 42 (fun _ => false)) 7 "job-1").2
        = none := by
  constructor <;> rfl

/-- Helper: `WebSocketManager.disconnect` never touches `latest_progress`. -/
theorem wsMgrDisconnect_latest (m : WSManager) (ws : Nat) (scan_id : String) :
    (wsMgrDisconnect m ws scan_id).latest_progress = m.latest_progress := by
  unfold wsMgrDisconnect
  cases dget m.active_connections scan_id with
  | none => rfl
  | some conns =>
    by_cases h : ws ∈ conns
    · by_cases h2 : lerase conns ws = [] <;> simp [h, h2]
    · simp [h]

/-- Helper: the failed-connection cleanup loop of `send_progress_update`
never touches `latest_progress`. -/
theorem foldDisconnect_latest (l : List Nat) (scan_id : String) :
    ∀ m : WSManager,
      (l.foldl (fun acc ws => wsMgrDisconnect acc ws scan_id) m).latest_progress
        = m.latest_progress := by
  induction l with
  | nil => intro m; rfl
  | cons ws rest ih =>
    intro m
    rw [List.foldl_cons, ih, wsMgrDisconnect_latest]

/-- C3 (amended): `send_progress_update` stores the snapshot only when at
least one connection is registered for the job id at publish time — in
that case the stored snapshot is the published payload; with no registered
connection the publish is dropped entirely and the manager is unchanged.
A subscriber connecting while a snapshot exists receives exactly that
snapshot on connect. -/
theorem c3_snapshot_amended (m : WSManager) (scan_id : String) (data : Nat)
    (dead : Nat → Bool) :
    (dget m.active_connections scan_id ≠ none →
      dget (sendProgressUpdate m scan_id data dead).latest_progress scan_id = some data)
    ∧ (dget m.active_connections scan_id = none →
      sendProgressUpdate m scan_id data dead = m)
    ∧ (∀ (ws : Nat) (d : Nat), dget m.latest_progress scan_id = some d →
      (wsMgrConnect m ws scan_id).2 = some d) := by
  refine ⟨?_, ?_, ?_⟩
  · intro h
    unfold sendProgressUpdate
    cases hc : dget m.active_connections scan_id with
    | none => exact absurd hc h
    | some conns =>
      rw [foldDisconnect_latest]
      simp [dget_dset]
  · intro h
    unfold sendProgressUpdate
    rw [h]
  · intro ws d h
    simpa [wsMgrConnect] using h

/-- C3 (witness): with one live connection on the job, publishing stores
the snapshot. -/
theorem c3_witness :
    dget (sendProgressUpdate c3ConnectedWS "job-1" 42 (fun _ => false)).latest_progress "job-1"
      = some 42 :=
  (c3_snapshot_amended c3ConnectedWS "job-1" 42 (fun _ => false)).1 (by decide)

/-- C5 (counterexample): with the stop flag set for the whole call (and the
tool healthy), both adapters return status `"completed"` — neither ever
returns `"cancelled"`; the network adapter does not check the flag at all. -/
theorem c5_counterexample :
    nmapScanStatus true { } = "completed"
    ∧ zapScanStatus true { } = "completed"
    ∧ ("completed" : String) ≠ "cancelled" := by
  refine ⟨rfl, rfl, by decide⟩

/-- C5 (amended): no execution of either adapter's `scan()` ever returns
status `"cancelled"`: the network adapter never consults the stop flag
(its status and progress emissions are identical with the flag set or
clear), and the web-application adapter consults the flag only inside its
polling waits, which then break out immediately (emitting nothing) while
`scan()` goes on to return `"completed"` or `"failed"`. -/
theorem c5_never_cancelled_amended (stop : Bool) (envN : NmapScanEnv) (envZ : ZapScanEnv)
    (polls : List (Option Nat)) (base : Nat) :
    nmapScanStatus stop envN ≠ "cancelled"
    ∧ zapScanStatus stop envZ ≠ "cancelled"
    ∧ nmapScanStatus stop envN = nmapScanStatus false envN
    ∧ nmapScanEmits stop envN = nmapScanEmits false envN
    ∧ zapPollEmits base true polls = []
    ∧ zapPassiveEmits true polls = [] := by
  refine ⟨?_, ?_, rfl, rfl, ?_, ?_⟩
  · unfold nmapScanStatus
    by_cases h : (envN.healthOk && envN.validateOk && envN.execOk) = true
    · rw [if_pos h]; decide
    · rw [if_neg h]; decide
  · unfold zapScanStatus
    by_cases h1 : envZ.healthOk = true
    · by_cases h2 : envZ.validateOk = true
      · rw [if_pos h1, if_pos h2]; decide
      · rw [if_pos h1, if_neg h2]; decide
    · rw [if_neg h1]; decide
  · cases polls with
    | nil => rfl
    | cons o rest => rfl
  · cases polls with
    | nil => rfl
    | cons o rest => rfl

/-! ### Progress monotonicity machinery (C9) -/

/-- Helper: a ZAP polling loop with the stop flag set emits nothing. -/
theorem zapPollEmits_true (base : Nat) (polls : List (Option Nat)) :
    zapPollEmits base true polls = [] := by
  cases polls with
  | nil => rfl
  | cons o rest => rfl

/-- Helper: the passive wait with the stop flag set emits nothing. -/
theorem zapPassiveEmits_true (polls : List (Option Nat)) :
    zapPassiveEmits true polls = [] := by
  cases polls with
  | nil => rfl
  | cons o rest => rfl

/-- Helper: the tail of a non-decreasing list is non-decreasing. -/
theorem nonDecr_tail (x : Nat) (l : List Nat) (h : nonDecr (x :: l) = true) :
    nonDecr l = true := by
  cases l with
  | nil => rfl
  | cons y t =>
    unfold nonDecr at h
    by_cases hxy : x ≤ y
    · rwa [if_pos hxy] at h
    · rw [if_neg hxy] at h; exact absurd h (by decide)

/-- Helper: the head of a non-decreasing list bounds every later element. -/
theorem nonDecr_head_le (x : Nat) (l : List Nat) (h : nonDecr (x :: l) = true) :
    ∀ y ∈ l, x ≤ y := by
  induction l generalizing x with
  | nil => intro y hy; simp at hy
  | cons y t ih =>
    have hxy : x ≤ y := by
      unfold nonDecr at h
      by_cases hc : x ≤ y
      · exact hc
      · rw [if_neg hc] at h; exact absurd h (by decide)
    intro z hz
    rcases List.mem_cons.mp hz with rfl | hz'
    · exact hxy
    · exact le_trans hxy (ih y (nonDecr_tail x (y :: t) h) z hz')

/-- Helper: prepending a lower bound preserves non-decrease. -/
theorem nonDecr_cons_of (x : Nat) (l : List Nat) (hb : ∀ y ∈ l, x ≤ y)
    (h : nonDecr l = true) : nonDecr (x :: l) = true := by
  cases l with
  | nil => rfl
  | cons y t =>
    unfold nonDecr
    rw [if_pos (hb y (List.mem_cons_self y t))]
    exact h

/-- Helper: concatenation of non-decreasing lists is non-decreasing when
every element of the first is bounded by every element of the second. -/
theorem nonDecr_append (xs ys : List Nat) (hx : nonDecr xs = true)
    (hy : nonDecr ys = true) (hxy : ∀ x ∈ xs, ∀ y ∈ ys, x ≤ y) :
    nonDecr (xs ++ ys) = true := by
  induction xs with
  | nil => simpa using hy
  | cons x t ih =>
    rw [List.cons_append]
    refine nonDecr_cons_of x (t ++ ys) ?_ (ih (nonDecr_tail x t hx) ?_)
    · intro y hy'
      rcases List.mem_append.mp hy' with h1 | h2
      · exact nonDecr_head_le x t hx y h1
      · exact hxy x (List.mem_cons_self x t) y h2
    · intro a ha b hb
      exact hxy a (List.mem_cons_of_mem x ha) b hb

/-- Helper: the polled prefix is a subset of the poll values. -/
theorem takeIncl_subset (l : List Nat) : ∀ y ∈ takeIncl l, y ∈ l := by
  induction l with
  | nil => intro y hy; simp [takeIncl] at hy
  | cons p rest ih =>
    intro y hy
    unfold takeIncl at hy
    rcases List.mem_cons.mp hy with rfl | hy'
    · exact List.mem_cons_self _ _
    · by_cases h : 100 ≤ p
      · rw [if_pos h] at hy'; simp at hy'
      · rw [if_neg h] at hy'
        exact List.mem_cons_of_mem p (ih y hy')

/-- Helper: the polled prefix of a non-decreasing list is non-decreasing. -/
theorem takeIncl_nonDecr (l : List Nat) (h : nonDecr l = true) :
    nonDecr (takeIncl l) = true := by
  induction l with
  | nil => rfl
  | cons p rest ih =>
    unfold takeIncl
    by_cases hc : 100 ≤ p
    · rw [if_pos hc]; rfl
    · rw [if_neg hc]
      refine nonDecr_cons_of p (takeIncl rest) ?_ (ih (nonDecr_tail p rest h))
      intro y hy
      exact nonDecr_head_le p rest h y (takeIncl_subset rest y hy)

/-- Helper: the affine remap `p ↦ base + 3p` preserves non-decrease. -/
theorem nonDecr_map_affine (base : Nat) (l : List Nat) (h : nonDecr l = true) :
    nonDecr (l.map (fun p => base + 3 * p)) = true := by
  induction l with
  | nil => rfl
  | cons x t ih =>
    cases t with
    | nil => rfl
    | cons y t' =>
      have hxy : x ≤ y := by
        unfold nonDecr at h
        by_cases hc : x ≤ y
        · exact hc
        · rw [if_neg hc] at h; exact absurd h (by decide)
      have ht : nonDecr ((y :: t').map (fun p => base + 3 * p)) = true :=
        ih (nonDecr_tail x (y :: t') h)
      rw [List.map_cons]
      refine nonDecr_cons_of _ _ ?_ ht
      intro z hz
      have : ∀ w ∈ (y :: t').map (fun p => base + 3 * p), base + 3 * y ≤ w := by
        intro w hw
        rcases List.mem_map.mp hw with ⟨q, hq, rfl⟩
        have : y ≤ q := by
          rcases List.mem_cons.mp hq with heq | hq'
          · omega
          · exact nonDecr_head_le y t' (nonDecr_tail x (y :: t') h) q hq'
        omega
      have hz' := this z hz
      omega

/-- Helper: with the stop flag clear, a ZAP polling loop emits exactly the
affine remap of the tool-progress prefix it consumes. -/
theorem zapPollEmits_false_eq (base : Nat) (polls : List (Option Nat)) :
    zapPollEmits base false polls = (takeIncl (pollVals polls)).map (fun p => base + 3 * p) := by
  induction polls with
  | nil => rfl
  | cons o rest ih =>
    cases o with
    | none =>
      show zapPollEmits base false (none :: rest) = _
      have h1 : zapPollEmits base false (none :: rest) = zapPollEmits base false rest := rfl
      have h2 : pollVals (none :: rest) = pollVals rest := by simp [pollVals]
      rw [h1, h2, ih]
    | some p =>
      have h2 : pollVals (some p :: rest) = p :: pollVals rest := by simp [pollVals]
      rw [h2]
      show (base + 3 * p) :: (if 100 ≤ p then [] else zapPollEmits base false rest)
        = (takeIncl (p :: pollVals rest)).map (fun p => base + 3 * p)
      unfold takeIncl
      by_cases hc : 100 ≤ p
      · rw [if_pos hc, if_pos hc]; rfl
      · rw [if_neg hc, if_neg hc, List.map_cons, ih]

/-- Helper: emissions of a stop-clear polling loop are non-decreasing when
the tool-reported values are. -/
theorem zapPollEmits_nonDecr (base : Nat) (polls : List (Option Nat))
    (h : nonDecr (pollVals polls) = true) :
    nonDecr (zapPollEmits base false polls) = true := by
  rw [zapPollEmits_false_eq]
  exact nonDecr_map_affine base _ (takeIncl_nonDecr _ h)

/-- Helper: emissions of a stop-clear polling loop stay in
`[base, base + 300]` when the tool-reported values are at most 100. -/
theorem zapPollEmits_bounds (base : Nat) (polls : List (Option Nat))
    (h : ∀ v ∈ pollVals polls, v ≤ 100) :
    ∀ e ∈ zapPollEmits base false polls, base ≤ e ∧ e ≤ base + 300 := by
  intro e he
  rw [zapPollEmits_false_eq] at he
  rcases List.mem_map.mp he with ⟨p, hp, rfl⟩
  have : p ≤ 100 := h p (takeIncl_subset _ p hp)
  omega

/-- Helper: every passive-wait emission equals 450. -/
theorem zapPassiveEmits_all (stop : Bool) (polls : List (Option Nat)) :
    ∀ e ∈ zapPassiveEmits stop polls, e = 450 := by
  induction polls with
  | nil => intro e he; simp [zapPassiveEmits] at he
  | cons o rest ih =>
    intro e he
    cases o with
    | none =>
      have hu : zapPassiveEmits stop (none :: rest)
          = if stop = true then [] else zapPassiveEmits stop rest := rfl
      rw [hu] at he
      by_cases hs : stop = true
      · rw [if_pos hs] at he; simp at he
      · rw [if_neg hs] at he; exact ih e he
    | some r =>
      have hu : zapPassiveEmits stop (some r :: rest)
          = if stop = true then []
            else if r = 0 then [] else 450 :: zapPassiveEmits stop rest := rfl
      rw [hu] at he
      by_cases hs : stop = true
      · rw [if_pos hs] at he; simp at he
      · rw [if_neg hs] at he
        by_cases hr : r = 0
        · rw [if_pos hr] at he; simp at he
        · rw [if_neg hr] at he
          rcases List.mem_cons.mp he with rfl | he'
          · rfl
          · exact ih e he'

/-- Helper: a constant list is non-decreasing. -/
theorem nonDecr_const (c : Nat) (l : List Nat) (h : ∀ e ∈ l, e = c) :
    nonDecr l = true := by
  induction l with
  | nil => rfl
  | cons x t ih =>
    refine nonDecr_cons_of x t ?_ (ih fun e he => h e (List.mem_cons_of_mem x he))
    intro y hy
    rw [h x (List.mem_cons_self x t), h y (List.mem_cons_of_mem x hy)]

/-- C9 (counterexample): if the ZAP spider reports progress 50 and then 30
(a regression in the tool's own status), the adapter relays it: the
progress percentages passed to the callback are 0, 10, 25, 19, 40, … —
not a non-decreasing sequence. -/
theorem c9_counterexample :
    nonDecr (zapScanEmits false c9BadEnv) = false
    ∧ zapScanEmits false c9BadEnv = [0, 100, 250, 190, 400, 600, 900, 1000] := by
  constructor <;> rfl

/-- C9 (amended): the network adapter's progress emissions are
non-decreasing unconditionally; the web-application adapter's are
non-decreasing provided the tool-reported progress values it polls (spider
and active-scan status) are non-decreasing within each phase and at most
100 — a regressing tool status is relayed as a regressing callback value
(see the counterexample). -/
theorem c9_progress_amended (stop : Bool) (envN : NmapScanEnv) (envZ : ZapScanEnv) :
    nonDecr (nmapScanEmits stop envN) = true
    ∧ (nonDecr (pollVals envZ.spiderPolls) = true →
       (∀ v ∈ pollVals envZ.spiderPolls, v ≤ 100) →
       nonDecr (pollVals envZ.activePolls) = true →
       (∀ v ∈ pollVals envZ.activePolls, v ≤ 100) →
       nonDecr (zapScanEmits stop envZ) = true) := by
  constructor
  · obtain ⟨h, v, e⟩ := envN
    cases h <;> cases v <;> cases e <;> rfl
  · intro h1 h2 h3 h4
    obtain ⟨hOk, vOk, eS, eP, eA, sp, pp, ap⟩ := envZ
    cases hOk with
    | false => rfl
    | true =>
      cases vOk with
      | false => rfl
      | true =>
        cases stop with
        | true =>
          show nonDecr (0 :: 100 :: ((if eS = true then zapPollEmits 100 true sp else [])
            ++ 400 :: ((if eP = true then zapPassiveEmits true pp else [])
            ++ 600 :: ((if eA = true then zapPollEmits 600 true ap else [])
            ++ [900, 1000])))) = true
          rw [zapPollEmits_true, zapPollEmits_true, zapPassiveEmits_true,
            ite_self, ite_self, ite_self]
          decide
        | false =>
          show nonDecr (0 :: 100 :: ((if eS = true then zapPollEmits 100 false sp else [])
            ++ 400 :: ((if eP = true then zapPassiveEmits false pp else [])
            ++ 600 :: ((if eA = true then zapPollEmits 600 false ap else [])
            ++ [900, 1000])))) = true
          set S := if eS = true then zapPollEmits 100 false sp else [] with hSdef
          set P := if eP = true then zapPassiveEmits false pp else [] with hPdef
          set A := if eA = true then zapPollEmits 600 false ap else [] with hAdef
          have hS_nd : nonDecr S = true := by
            rw [hSdef]; by_cases h : eS = true
            · rw [if_pos h]; exact zapPollEmits_nonDecr 100 sp h1
            · rw [if_neg h]; rfl
          have hS_bd : ∀ e ∈ S, 100 ≤ e ∧ e ≤ 400 := by
            rw [hSdef]; by_cases h : eS = true
            · rw [if_pos h]; exact zapPollEmits_bounds 100 sp h2
            · rw [if_neg h]; intro e he; simp at he
          have hP_all : ∀ e ∈ P, e = 450 := by
            rw [hPdef]; by_cases h : eP = true
            · rw [if_pos h]; exact zapPassiveEmits_all false pp
            · rw [if_neg h]; intro e he; simp at he
          have hP_nd : nonDecr P = true := nonDecr_const 450 P hP_all
          have hA_nd : nonDecr A = true := by
            rw [hAdef]; by_cases h : eA = true
            · rw [if_pos h]; exact zapPollEmits_nonDecr 600 ap h3
            · rw [if_neg h]; rfl
          have hA_bd : ∀ e ∈ A, 600 ≤ e ∧ e ≤ 900 := by
            rw [hAdef]; by_cases h : eA = true
            · rw [if_pos h]; exact zapPollEmits_bounds 600 ap h4
            · rw [if_neg h]; intro e he; simp at he
          have hA2 : nonDecr (A ++ [900, 1000]) = true := by
            refine nonDecr_append A [900, 1000] hA_nd (by decide) ?_
            intro x hx y hy
            have hx' := (hA_bd x hx).2
            rcases List.mem_cons.mp hy with rfl | hy'
            · omega
            · rcases List.mem_cons.mp hy' with rfl | hy''
              · omega
              · simp at hy''
          have hA2_bd : ∀ y ∈ A ++ [900, 1000], 600 ≤ y := by
            intro y hy
            rcases List.mem_append.mp hy with h | h
            · exact (hA_bd y h).1
            · rcases List.mem_cons.mp h with rfl | h'
              · omega
              · rcases List.mem_cons.mp h' with rfl | h''
                · omega
                · simp at h''
          have hB : nonDecr (600 :: (A ++ [900, 1000])) = true :=
            nonDecr_cons_of 600 _ hA2_bd hA2
          have hB_bd : ∀ y ∈ 600 :: (A ++ [900, 1000]), 600 ≤ y := by
            intro y hy
            rcases List.mem_cons.mp hy with rfl | hy'
            · omega
            · exact hA2_bd y hy'
          have hC : nonDecr (P ++ 600 :: (A ++ [900, 1000])) = true := by
            refine nonDecr_append P _ hP_nd hB ?_
            intro x hx y hy
            have := hP_all x hx
            have := hB_bd y hy
            omega
          have hC_bd : ∀ y ∈ P ++ 600 :: (A ++ [900, 1000]), 400 ≤ y := by
            intro y hy
            rcases List.mem_append.mp hy with h | h
            · have := hP_all y h; omega
            · have := hB_bd y h; omega
          have hD : nonDecr (400 :: (P ++ 600 :: (A ++ [900, 1000]))) = true :=
            nonDecr_cons_of 400 _ hC_bd hC
          have hD_bd : ∀ y ∈ 400 :: (P ++ 600 :: (A ++ [900, 1000])), 400 ≤ y := by
            intro y hy
            rcases List.mem_cons.mp hy with rfl | hy'
            · omega
            · exact hC_bd y hy'
          have hE : nonDecr (S ++ 400 :: (P ++ 600 :: (A ++ [900, 1000]))) = true := by
            refine nonDecr_append S _ hS_nd hD ?_
            intro x hx y hy
            have := (hS_bd x hx).2
            have := hD_bd y hy
            omega
          have hE_bd : ∀ y ∈ S ++ 400 :: (P ++ 600 :: (A ++ [900, 1000])), 100 ≤ y := by
            intro y hy
            rcases List.mem_append.mp hy with h | h
            · exact (hS_bd y h).1
            · have := hD_bd y h; omega
          have hF : nonDecr (100 :: (S ++ 400 :: (P ++ 600 :: (A ++ [900, 1000])))) = true :=
            nonDecr_cons_of 100 _ hE_bd hE
          exact nonDecr_cons_of 0 _ (fun y _ => Nat.zero_le y) hF

/-- C9 (witness): on a concrete well-behaved environment the theorem
yields non-decreasing ZAP emissions, and the nmap part holds on the
default environment. -/
theorem c9_witness :
    nonDecr (nmapScanEmits false { }) = true
    ∧ nonDecr (zapScanEmits false c9GoodEnv) = true :=
  ⟨(c9_progress_amended false { } c9GoodEnv).1,
   (c9_progress_amended false { } c9GoodEnv).2 (by decide) (by decide) (by decide) (by decide)⟩

/-! ### Index-consistency machinery (C8) -/

/-- Helper: membership characterization of `subMem`. -/
theorem subMem_iff (d : List (String × List String)) (k x : String) :
    subMem d k x ↔ ∃ s, dget d k = some s ∧ x ∈ s := by
  unfold subMem
  cases h : dget d k <;> simp

/-- Helper: `subMem` through a dict update. -/
theorem subMem_dset (d : List (String × List String)) (k k' x : String) (v : List String) :
    subMem (dset d k v) k' x ↔ if k = k' then x ∈ v else subMem d k' x := by
  rw [subMem_iff, dget_dset]
  by_cases h : k = k' <;> simp [h, subMem_iff]

/-- Helper: `subMem` through a dict deletion. -/
theorem subMem_ddel (d : List (String × List String)) (k k' x : String) :
    subMem (ddel d k) k' x ↔ k ≠ k' ∧ subMem d k' x := by
  rw [subMem_iff, dget_ddel]
  by_cases h : k = k' <;> simp [h, subMem_iff]

/-- Helper: `subMem` through the add-to-set idiom. -/
theorem subMem_addSub (d : List (String × List String)) (k x k' a : String) :
    subMem (addSub d k x) k' a ↔ subMem d k' a ∨ (k' = k ∧ a = x) := by
  unfold addSub
  cases hd : dget d k with
  | none =>
    have h1 : dget (dset d k ([] : List String)) k = some [] := by
      rw [dget_dset]; simp
    simp only [h1]
    rw [subMem_dset]
    by_cases h : k = k'
    · subst h
      simp [mem_sadd, subMem_iff, hd]
    · have h' : ¬ k' = k := fun e => h e.symm
      rw [if_neg h, subMem_dset, if_neg h]
      simp [h']
  | some s =>
    simp only [hd]
    rw [subMem_dset]
    by_cases h : k = k'
    · subst h
      have hx : subMem d k a ↔ a ∈ s := by rw [subMem_iff]; simp [hd]
      simp [mem_sadd, hx]
    · have h' : ¬ k' = k := fun e => h e.symm
      rw [if_neg h]
      simp [h']

/-- Helper: `subMem` through the discard-and-delete-empty idiom. -/
theorem subMem_dropSubDel (d : List (String × List String)) (k x k' a : String) :
    subMem (dropSubDel d k x) k' a ↔ subMem d k' a ∧ ¬(k' = k ∧ a = x) := by
  unfold dropSubDel
  cases hd : dget d k with
  | none =>
    by_cases h : k' = k
    · subst h
      have : subMem d k' a ↔ False := by rw [subMem_iff]; simp [hd]
      simp [this]
    · simp [h]
  | some s =>
    show subMem (if sdiscard s x = [] then ddel d k else dset d k (sdiscard s x)) k' a ↔ _
    by_cases he : sdiscard s x = []
    · rw [if_pos he, subMem_ddel]
      by_cases h : k' = k
      · subst h
        have hmem : subMem d k' a ↔ a ∈ s := by rw [subMem_iff]; simp [hd]
        have hds : a ∈ sdiscard s x ↔ a ∈ s ∧ a ≠ x := mem_sdiscard s x a
        rw [he] at hds
        simp only [List.not_mem_nil, false_iff] at hds
        constructor
        · rintro ⟨hne, -⟩; exact absurd rfl hne
        · rintro ⟨hm, hno⟩
          exact absurd ⟨hmem.mp hm, fun e => hno ⟨rfl, e⟩⟩ hds
      · have h' : ¬ k = k' := fun e => h e.symm
        simp [h', h]
    · rw [if_neg he, subMem_dset]
      by_cases h : k = k'
      · subst h
        have hmem : subMem d k a ↔ a ∈ s := by rw [subMem_iff]; simp [hd]
        rw [if_pos rfl, mem_sdiscard, hmem]
        tauto
      · have h' : ¬ k' = k := fun e => h e.symm
        rw [if_neg h]
        simp [h']

/-- Helper: `subMem` through the discard-keep idiom. -/
theorem subMem_dropSubKeep (d : List (String × List String)) (k x k' a : String) :
    subMem (dropSubKeep d k x) k' a ↔ subMem d k' a ∧ ¬(k' = k ∧ a = x) := by
  unfold dropSubKeep
  cases hd : dget d k with
  | none =>
    by_cases h : k' = k
    · subst h
      have : subMem d k' a ↔ False := by rw [subMem_iff]; simp [hd]
      simp [this]
    · simp [h]
  | some s =>
    show subMem (dset d k (sdiscard s x)) k' a ↔ _
    rw [subMem_dset]
    by_cases h : k = k'
    · subst h
      have hmem : subMem d k a ↔ a ∈ s := by rw [subMem_iff]; simp [hd]
      rw [if_pos rfl, mem_sdiscard, hmem]
      tauto
    · have h' : ¬ k' = k := fun e => h e.symm
      rw [if_neg h]
      simp [h']

/-- Helper: `setdefault` with an empty set never changes membership. -/
theorem subMem_setdefaultEmpty (d : List (String × List String)) (k k' a : String) :
    subMem (setdefaultEmpty d k) k' a ↔ subMem d k' a := by
  unfold setdefaultEmpty
  cases hd : dget d k with
  | none =>
    rw [subMem_dset]
    by_cases h : k = k'
    · subst h
      have : subMem d k a ↔ False := by rw [subMem_iff]; simp [hd]
      simp [this]
    · rw [if_neg h]
  | some s => exact Iff.rfl

/-- Helper: `subMem` through the disconnect cleanup fold. -/
theorem subMem_discardFold (u : String) (L : List String) :
    ∀ (scans : List (String × List String)) (s a : String),
      subMem (discardUserFromScans u L scans) s a
        ↔ subMem scans s a ∧ ¬(a = u ∧ s ∈ L) := by
  induction L with
  | nil =>
    intro scans s a
    simp [discardUserFromScans]
  | cons sid rest ih =>
    intro scans s a
    show subMem (discardUserFromScans u rest (dropSubDel scans sid u)) s a ↔ _
    rw [ih, subMem_dropSubDel, List.mem_cons]
    tauto

/-- Helper: `subscribe_to_scan` preserves index consistency. -/
theorem consistent_subscribe (m : ConnectionManager) (u s : String)
    (h : IndicesConsistent m) : IndicesConsistent (subscribeToScan m u s) := by
  intro u' s'
  show subMem (addSub m.scan_subscriptions s u) s' u'
    ↔ subMem (addSub m.user_subscriptions u s) u' s'
  rw [subMem_addSub, subMem_addSub]
  have hh := h u' s'
  tauto

/-- Helper: `unsubscribe_from_scan` preserves index consistency. -/
theorem consistent_unsubscribe (m : ConnectionManager) (u s : String)
    (h : IndicesConsistent m) : IndicesConsistent (unsubscribeFromScan m u s) := by
  intro u' s'
  show subMem (dropSubDel m.scan_subscriptions s u) s' u'
    ↔ subMem (dropSubKeep m.user_subscriptions u s) u' s'
  rw [subMem_dropSubDel, subMem_dropSubKeep]
  have hh := h u' s'
  tauto

/-- Helper: `connect` preserves index consistency. -/
theorem consistent_connect (m : ConnectionManager) (ws : Nat) (u : String)
    (h : IndicesConsistent m) : IndicesConsistent (cmConnect m ws u) := by
  intro u' s'
  show subMem m.scan_subscriptions s' u'
    ↔ subMem (setdefaultEmpty m.user_subscriptions u) u' s'
  rw [subMem_setdefaultEmpty]
  exact h u' s'

/-- Helper: `disconnect` preserves index consistency. -/
theorem consistent_disconnect (m : ConnectionManager) (ws : Nat) (u : String)
    (h : IndicesConsistent m) : IndicesConsistent (cmDisconnect m ws u) := by
  unfold cmDisconnect
  cases hc : dget m.active_connections u with
  | none => exact h
  | some conns =>
    show IndicesConsistent
      (if ws ∈ conns then
        if lerase conns ws = [] then
          match dget m.user_subscriptions u with
          | none => { m with active_connections := ddel m.active_connections u }
          | some scanList =>
            { active_connections := ddel m.active_connections u
              scan_subscriptions := discardUserFromScans u scanList m.scan_subscriptions
              user_subscriptions := ddel m.user_subscriptions u }
        else { m with active_connections := dset m.active_connections u (lerase conns ws) }
      else m)
    by_cases hw : ws ∈ conns
    · rw [if_pos hw]
      by_cases hE : lerase conns ws = []
      · rw [if_pos hE]
        cases hu : dget m.user_subscriptions u with
        | none => exact h
        | some scanList =>
          intro u' s'
          show subMem (discardUserFromScans u scanList m.scan_subscriptions) s' u'
            ↔ subMem (ddel m.user_subscriptions u) u' s'
          rw [subMem_discardFold, subMem_ddel]
          by_cases huu : u' = u
          · subst huu
            have hset : subMem m.user_subscriptions u' s' ↔ s' ∈ scanList := by
              rw [subMem_iff]; simp [hu]
            have hh := h u' s'
            rw [hset] at hh
            constructor
            · rintro ⟨hl, hr⟩
              exact absurd ⟨rfl, hh.mp hl⟩ hr
            · rintro ⟨hne, -⟩
              exact absurd rfl hne
          · have huu' : u ≠ u' := fun e => huu e.symm
            have hh := h u' s'
            tauto
      · rw [if_neg hE]
        exact h
    · rw [if_neg hw]
      exact h

/-- Helper: every `ConnectionManager` operation preserves index consistency. -/
theorem consistent_applyWsOp (m : ConnectionManager) (op : WsOp)
    (h : IndicesConsistent m) : IndicesConsistent (applyWsOp m op) := by
  cases op with
  | subscribe u s => exact consistent_subscribe m u s h
  | unsubscribe u s => exact consistent_unsubscribe m u s h
  | connect ws u => exact consistent_connect m ws u h
  | disconnect ws u => exact consistent_disconnect m ws u h

/-- C8 (confirmed): after any sequence of subscribe, unsubscribe, connect
and disconnect operations starting from the freshly imported
`ConnectionManager`, the two subscription indices are mutually consistent:
a user appears in a scan's subscriber set iff that scan appears in the
user's subscription set. -/
theorem c8_indices_consistent (ops : List WsOp) : IndicesConsistent (runWsOps ops) := by
  suffices hgen : ∀ m : ConnectionManager, IndicesConsistent m →
      IndicesConsistent (ops.foldl applyWsOp m) by
    refine hgen emptyConnectionManager ?_
    intro u s
    simp [subMem, emptyConnectionManager, dget]
  induction ops with
  | nil => intro m h; exact h
  | cons op rest ih =>
    intro m h
    exact ih (applyWsOp m op) (consistent_applyWsOp m op h)

end ScanIA
